import Mathlib

/-!
Verification of the odfuzz core (src/odfuzz/fuzzer.py, src/odfuzz/constants.py)
against its natural-language specification.

The Python source is shallowly embedded: pure functions become Lean
functions, object mutation becomes explicit state passing, MongoDB
aggregation pipelines over the corpus collection become list operations
over an explicit store value, and code that can raise an uncaught Python
exception returns Option (none marks the exception).  Randomness
(random.choice, random.random, the aggregation stage of kind sample) is
modelled by explicit oracle arguments: a call site that draws a random
element of a list receives the drawn index (reduced modulo the list
length, as random.choice always yields an in-range index), the comparison
of random.random() against DEATH_CHANCE is received as a Bool, and the
sample stage is an arbitrary function from the candidate list to the
chosen sublist.

Numeric types: Python ints become ℤ (no overflow in Python), Python float
values reachable here (elapsed seconds, corpus score averages, the
hard-coded pruning bound) become ℚ; for the magnitudes occurring in this
program the float computations agree with exact rational arithmetic, as
noted at each use site.

Constants defined in src/odfuzz/constants.py are reproduced with their
values.  The source additionally imports DEATH_CHANCE, SELECTION_THRESHOLD,
PARTS_NUM, POOL_SIZE, SEED_POPULATION and MONGODB_COLLECTION from
odfuzz.constants, but those names are not defined in the file under src/;
every definition and theorem below is therefore parametric in the values
that matter (the selection threshold, the filter-parts bound, the
death-chance draw), so nothing depends on the missing values.
-/

namespace Odfuzz

/-! ## Constants (src/odfuzz/constants.py) -/

def STRING_THRESHOLD : ℕ := 200

def ITERATIONS_THRESHOLD : ℕ := 30

def SCORE_EPS : ℚ := 200

/-! ## Data model

A filter option value is the dict built by the entities module:
logicals, parts (each part a dict with name, operator, operand), groups.
Only the fields read by fuzzer.py are modelled; logicals and groups are
carried opaquely as strings, since fuzzer.py never inspects them. -/

structure FilterPart where
  name : String
  operator : String
  operand : String
deriving DecidableEq, Repr

structure FilterOption where
  logicals : List String
  parts : List FilterPart
  groups : List String
deriving DecidableEq, Repr

/-- The part of a requests response object read by the fuzzer:
response.status_code and response.elapsed.total_seconds(). -/
structure Response where
  status_code : ℤ
  elapsed_total_seconds : ℚ
deriving DecidableEq, Repr

/-- The Query object of fuzzer.py.  The response field is Option because
Query.__init__ sets the response attribute to None and a response is
attached only after dispatch.  The id is the uuid string drawn at
construction. -/
structure QueryObj where
  entity_name : String
  options : List (String × FilterOption)
  query_string : String
  predecessors : List String
  response : Option Response
  id : String
deriving DecidableEq, Repr

/-! ## FitnessEvaluator (fuzzer.py lines 327-361) -/

/-- Rounding of builtin round() in Python 3: to the nearest integer, ties
to the even integer.  The source applies round() to the float division
STRING_THRESHOLD / string_length; for the magnitudes reachable here
(numerator 200, denominator a small integer) the float quotient rounds to
the same integer as the exact rational quotient, so the rational model is
faithful. -/
def pythonRound (q : ℚ) : ℤ :=
  if q - ⌊q⌋ < 1/2 then ⌊q⌋
  else if 1/2 < q - ⌊q⌋ then ⌊q⌋ + 1
  else if ⌊q⌋ % 2 = 0 then ⌊q⌋ else ⌊q⌋ + 1

def eval_string_length (string_length : ℤ) : ℤ :=
  pythonRound ((STRING_THRESHOLD : ℚ) / (string_length : ℚ))

def eval_http_status_code (status_code : ℤ) : ℤ :=
  if status_code = 500 then 100 else 0

def eval_http_response_time (total_seconds : ℚ) : ℤ :=
  if total_seconds < 2 then 0
  else if total_seconds < 10 then 1
  else if total_seconds < 20 then 2
  else 5

/-- keys_len in FitnessEvaluator.evaluate: the summed lengths of the
option names of the query. -/
def keys_len (q : QueryObj) : ℕ :=
  (q.options.map (fun kv => kv.1.length)).sum

/-- query_len in FitnessEvaluator.evaluate. -/
def query_len (q : QueryObj) : ℤ :=
  (q.query_string.length : ℤ) - (q.entity_name.length : ℤ) - (keys_len q : ℤ)

/-- FitnessEvaluator.evaluate.  Reading status_code and elapsed off a
query whose response is None raises AttributeError in Python, hence the
Option result.  total_score starts at 0 and the three contributions are
added in source order (string length, status code, response time). -/
def evaluate (q : QueryObj) : Option ℤ :=
  q.response.map (fun r =>
    0 + eval_string_length (query_len q)
      + eval_http_status_code r.status_code
      + eval_http_response_time r.elapsed_total_seconds)

/-! ## Crossover (Fuzzer._mate and Fuzzer._crossover_queries,
fuzzer.py lines 143-165)

Fuzzer._mate picks a random part of the filter of parent 1 and a random
part of the filter of parent 2, overwrites the name, operator and operand
of the chosen part of parent 1 with those of the chosen part of parent 2
(an in-place mutation of parent 1), and returns the whole filter of
parent 1.  The two random.choice draws are modelled by the indices i and
j of the drawn parts; random.choice on an empty list raises IndexError,
which is modelled by returning the unmodified input (theorems always
assume the indices are in range, which is exactly the reachable case). -/
def mate (f1 f2 : FilterOption) (i j : ℕ) : FilterOption :=
  match f2.parts[j]? with
  | some replacing_part =>
      let new_part : FilterPart :=
        { name := replacing_part.name
          operator := replacing_part.operator
          operand := replacing_part.operand }
      { f1 with parts := f1.parts.set i new_part }
  | none => f1

/-- The value held by the filter option of parent 1 after _mate returns:
the source mutates part_to_replace, an element of the parts list of the
filter of parent 1, field by field, so after the call the filter of
parent 1 carries the replaced part.  Written out independently of mate so
that the aliasing of the return value with the mutated parent can be
stated as a theorem. -/
def q1_filter_after_mate (f1 f2 : FilterOption) (i j : ℕ) : FilterOption :=
  match f2.parts[j]? with
  | some replacing_part =>
      let new_part : FilterPart :=
        { name := replacing_part.name
          operator := replacing_part.operator
          operand := replacing_part.operand }
      { f1 with parts := f1.parts.set i new_part }
  | none => f1

/-- Fuzzer._crossover_queries.  The serialization of the offspring filter
(Option and FilterOptionBuilder from odfuzz.entities, an external
collaborator that is not part of this repository) is received as the
function build_option_string; the uuid drawn in Query.__init__ is
received as new_id.  Note that the constructed child Query keeps the
empty predecessors list that Query.__init__ creates: _crossover_queries
never calls add_predecessor. -/
def crossover_queries (build_option_string : FilterOption → String)
    (query1_filter query2_filter : FilterOption) (i j : ℕ)
    (entity_set_name new_id : String) : QueryObj :=
  let offspring := mate query1_filter query2_filter i j
  { entity_name := entity_set_name
    options := [("$filter", offspring)]
    query_string := entity_set_name ++ "?$filter=" ++ build_option_string offspring
    predecessors := []
    response := none
    id := new_id }

/-- The property asserted by invariant I6 of the spec for a crossover
child c of parents with filters f1 and f2: there is exactly one index k
at which the part of c equals some part of f2, while every part of c at
an index other than k equals the part of f1 at that index. -/
def uniqueCrossIndex (c f1 f2 : FilterOption) : Prop :=
  ∃! k : ℕ, k < c.parts.length ∧
    (∃ p ∈ f2.parts, c.parts[k]? = some p) ∧
    ∀ m, m < c.parts.length → m ≠ k → c.parts[m]? = f1.parts[m]?

/-! ## The corpus store (class MongoClient, fuzzer.py lines 451-557)

The MongoDB collection is modelled as a list of documents in insertion
order: find and update_one scan in that order, insert_one appends, and
the aggregation stages project/unwind enumerate documents in collection
order and array elements in array order.  A stored query is the dict
built by Query._create_dict; scores are ℤ because every score written by
the fuzzer is the integer result of FitnessEvaluator.evaluate. -/

structure StoredQuery where
  id : String
  predecessors : List String
  string : String
  score : ℤ
  search : Option String
  top : Option String
  skip : Option String
  filter : Option FilterOption
deriving DecidableEq, Repr

structure CorpusDoc where
  http : String
  errorCode : Option String
  errorMessage : Option String
  entitySetName : String
  queries : List StoredQuery
deriving DecidableEq, Repr

abbrev Store := List CorpusDoc

/-- The key used by save_document for bucket lookup: the find filter of
insert_single_document and the first two conjuncts of the update filter
of update_single_document. -/
def sameKey (b d : CorpusDoc) : Prop :=
  b.entitySetName = d.entitySetName ∧ b.errorCode = d.errorCode

instance (b d : CorpusDoc) : Decidable (sameKey b d) := by
  unfold sameKey; infer_instance

/-- MongoClient.insert_single_document: insert the document only when no
document with the same (EntitySet.name, ErrorCode) pair exists; the Bool
reports whether an insert happened. -/
def insert_single_document (s : Store) (d : CorpusDoc) : Store × Bool :=
  if (s.filter (fun b => decide (sameKey b d))).length = 0 then (s ++ [d], true)
  else (s, false)

/-- The update_one filter of MongoClient.update_single_document: same
entity set name, same error code, and no query of the document has the
string of the incoming query (the $ne condition on an array field holds
exactly when no element equals the value). -/
def update_appendable (d : CorpusDoc) (q : StoredQuery) (b : CorpusDoc) : Prop :=
  sameKey b d ∧ ∀ qq ∈ b.queries, qq.string ≠ q.string

instance (d : CorpusDoc) (q : StoredQuery) (b : CorpusDoc) :
    Decidable (update_appendable d q b) := by
  unfold update_appendable; infer_instance

/-- update_one updates the first document matching the filter, in
collection order, and is a no-op if none matches. -/
def update_first (p : CorpusDoc → Bool) (f : CorpusDoc → CorpusDoc) :
    Store → Store
  | [] => []
  | b :: rest => if p b then f b :: rest else b :: update_first p f rest

/-- MongoClient.update_single_document.  The source reads queries[0] of
the incoming dict (an IndexError if the list were empty; Query._create_dict
always builds a one-element list) and pushes it onto the matched document;
a push appends at the end of the array. -/
def update_single_document (s : Store) (d : CorpusDoc) : Store :=
  match d.queries.head? with
  | none => s
  | some q =>
      update_first (fun b => decide (update_appendable d q b))
        (fun b => { b with queries := b.queries ++ [q] }) s

/-- MongoClient.save_document: try the insert; on conflict fall through
to the update. -/
def save_document (s : Store) (d : CorpusDoc) : Store :=
  let r := insert_single_document s d
  if r.2 then r.1 else update_single_document s d

/-- At most one document per (entity set name, error code) key. -/
def uniqueKeys (s : Store) : Prop :=
  s.Pairwise (fun b1 b2 => ¬ sameKey b1 b2)

/-- Within every bucket, no two stored queries share a query string. -/
def bucketDedup (s : Store) : Prop :=
  ∀ b ∈ s, b.queries.Pairwise (fun q1 q2 => q1.string ≠ q2.string)

/-- The flattened query stream produced by the project/unwind pipeline
prefix shared by query_by_id, total_queries, remove_weak_queries and
find_similar_queries: documents in collection order, array elements in
array order. -/
def allQueries (s : Store) : List StoredQuery :=
  (s.map (fun d => d.queries)).flatten

/-- MongoClient.query_by_id: flatten all queries, keep those whose id
matches, return the first result or None. -/
def query_by_id (s : Store) (qid : String) : Option StoredQuery :=
  ((allQueries s).filter (fun q => q.id = qid)).head?

/-- The keys of each document emitted by the query_by_id aggregation: the
project stage with the single named field Query emits that field plus the
default _id, and the following unwind and match stages do not change the
key set.  In particular the key "predecessors" is never among them: it
lives one level down, inside the value of the Query field. -/
def query_by_id_result_keys : List String := ["_id", "Query"]

/-- MongoClient.overall_score: the sum of all stored scores (per document
partial sums regrouped into one total).  On an empty collection the
source raises IndexError when indexing the aggregation result; callers
below guard that case explicitly. -/
def overallScore (s : Store) : ℤ :=
  ((allQueries s).map (fun q => q.score)).sum

/-- MongoClient.total_queries: the number of stored queries.  On a store
with no queries the source raises IndexError (the count stage emits no
document); theorems about callers carry the corresponding hypothesis. -/
def totalQueries (s : Store) : ℕ :=
  (allQueries s).length

/-- The literal float bound hard-coded in the live (uncommented) match
stage of MongoClient.remove_weak_queries. -/
def removeWeakHardcodedBound : ℚ := 5.521123123213123123213123

/-- MongoClient.remove_weak_queries.  The pipeline that would use the
score_average and number arguments is commented out in the source; the
live pipeline matches scores below the hard-coded literal and limits the
result to one query, whatever the arguments are.  The ids of the matched
queries are then pulled from every document and the number of collected
ids is returned. -/
def remove_weak_queries (s : Store) (score_average : ℚ) (number : ℕ) :
    Store × ℕ :=
  let matched := (allQueries s).filter
    (fun q => decide ((q.score : ℚ) < removeWeakHardcodedBound))
  let limited := matched.take 1
  let ids_to_delete := limited.map (fun q => q.id)
  ((s.map (fun d =>
      { d with queries := d.queries.filter (fun q => ¬ ids_to_delete.contains q.id) })),
   ids_to_delete.length)

/-- MongoClient.find_similar_queries: restrict to documents with the
requested HTTP code and entity set name, flatten their queries, keep the
queries whose filter has at least parts_num parts, and draw a random
sample of size two.  The sample stage is the sampler argument; every
theorem using it only assumes the sample is drawn from the candidates.
A stored query without a filter option is never emitted (the size
operator has no array to measure). -/
def find_similar_queries (sampler : List StoredQuery → List StoredQuery)
    (s : Store) (http_code entity_set_name : String) (parts_num : ℕ) :
    List StoredQuery :=
  let docs := s.filter
    (fun d => d.http = http_code && d.entitySetName = entity_set_name)
  let candidates := (allQueries docs).filter
    (fun q => match q.filter with
      | some f => parts_num ≤ f.parts.length
      | none => false)
  sampler candidates

/-! ## Analyzer (fuzzer.py lines 274-303) -/

structure AnalysisInfo where
  score : ℤ
  killable : Bool
  population_score : ℤ
deriving DecidableEq, Repr

/-- Analyzer._has_offspring_good_score: true when some predecessor id
resolves to a stored query whose score is at most the new score.  In the
source this helper is reachable only from the dead branch of analyze (see
analyze below); there, query_by_id would return the wrapper document and
the score subscript would raise KeyError.  The body is modelled on the
stored query carried in the wrapper; since the call site is unreachable,
the observable behaviour of analyze does not depend on this choice.
A predecessor id that resolves to None would raise TypeError in the
source; that case is modelled as false for the same reason. -/
def has_offspring_good_score (s : Store) (predecessors_id : List String)
    (new_score : ℤ) : Bool :=
  predecessors_id.any (fun pid =>
    match query_by_id s pid with
    | some q => decide (q.score ≤ new_score)
    | none => false)

/-- Analyzer._update_population_score: the first call primes the cached
population score from overall_score (IndexError, modelled as none, when
the collection is empty); later calls add the query score. -/
def update_population_score (s : Store) (population_score : ℤ)
    (query_score : ℤ) : Option ℤ :=
  if population_score = 0 then
    if s.isEmpty then none else some (overallScore s)
  else some (population_score + query_score)

/-- Analyzer.analyze.  The Bool draw_below_death_chance is the outcome of
the comparison of random.random() against DEATH_CHANCE.  After scoring
and updating the population score, the source rebinds the name query to
the result of query_by_id — a document of shape given by
query_by_id_result_keys — and tests membership of "predecessors" among
its keys.  That key set never contains "predecessors", so the killable
branch is dead and the returned info always carries killable = false. -/
def analyze (s : Store) (population_score : ℤ) (q : QueryObj)
    (draw_below_death_chance : Bool) : Option AnalysisInfo := do
  let new_score ← evaluate q
  let pop2 ← update_population_score s population_score new_score
  match query_by_id s q.id with
  | some found =>
      if query_by_id_result_keys.contains "predecessors" then
        if !(has_offspring_good_score s found.predecessors new_score)
            && draw_below_death_chance then
          some { score := new_score, killable := true, population_score := pop2 }
        else
          some { score := new_score, killable := false, population_score := pop2 }
      else
        some { score := new_score, killable := false, population_score := pop2 }
  | none =>
      some { score := new_score, killable := false, population_score := pop2 }

/-! ## Selector (fuzzer.py lines 198-252) -/

/-- A queryable as seen by the selector: only entity_set.name is read. -/
structure Queryable where
  entity_set_name : String
deriving DecidableEq, Repr

structure Selection where
  crossable : Option (List StoredQuery)
  queryable : Queryable
  score_average : ℚ
deriving DecidableEq, Repr

structure SelectorState where
  score_average : ℚ
  passed_iterations : ℕ
deriving DecidableEq, Repr

/-- Selector._is_score_stagnating, as a function from the selector state
and the store to the verdict and the new selector state.  When the
iteration counter exceeds the threshold the source always zeroes the
counter and overwrites the stored average with the fresh one, and only
then compares old and fresh averages.  The division is the Python float
division overall_score / total_queries; on a store with no queries the
source raises (totalQueries hypothesis in the theorems), while the model
returns the junk value given by rational division by zero. -/
def is_score_stagnating (st : SelectorState) (s : Store) :
    Bool × SelectorState :=
  if ITERATIONS_THRESHOLD < st.passed_iterations then
    let current_average : ℚ := (overallScore s : ℚ) / (totalQueries s : ℚ)
    let old_average := st.score_average
    let st2 : SelectorState :=
      { score_average := current_average, passed_iterations := 0 }
    if |old_average - current_average| < SCORE_EPS then (true, st2)
    else (false, st2)
  else (false, st)

/-- Selector._get_crossable: the bounded retry loop over the selection
threshold.  queries_pair starts as None; each round asks for similar
queries with HTTP 500, falls back to HTTP 200, continues on an empty
result, and breaks on a pair of exactly two.  When the rounds are
exhausted the last value of queries_pair is returned, which can be None
(threshold zero), an empty list, or a one-element list. -/
def get_crossable_go (sampler : List StoredQuery → List StoredQuery)
    (s : Store) (entity_set_name : String) (parts_num : ℕ) :
    ℕ → Option (List StoredQuery) → Option (List StoredQuery)
  | 0, acc => acc
  | n + 1, _ =>
      let pair0 := find_similar_queries sampler s "500" entity_set_name parts_num
      let pair :=
        if pair0.isEmpty then
          find_similar_queries sampler s "200" entity_set_name parts_num
        else pair0
      if pair.isEmpty then
        get_crossable_go sampler s entity_set_name parts_num n (some pair)
      else if pair.length = 2 then some pair
      else get_crossable_go sampler s entity_set_name parts_num n (some pair)

def get_crossable (sampler : List StoredQuery → List StoredQuery)
    (s : Store) (threshold : ℕ) (entity_set_name : String) (parts_num : ℕ) :
    Option (List StoredQuery) :=
  get_crossable_go sampler s entity_set_name parts_num threshold none

/-- The while loop of the non-stagnating branch of Selector.select: pick
a random queryable, ask for a crossable pair, and retry as long as the
pair is falsy or has length one.  The loop is unbounded in the source; it
is modelled with fuel, so that a result of none for every fuel value
exhibits divergence.  The counter t indexes the stream of random
queryable draws; an empty queryable list would make random.choice raise
(none). -/
def select_cross_loop (E : List Queryable)
    (sampler : List StoredQuery → List StoredQuery) (s : Store)
    (threshold parts_num : ℕ) (choices : ℕ → ℕ) :
    ℕ → ℕ → Option (List StoredQuery × Queryable)
  | 0, _ => none
  | fuel + 1, t =>
      match E[choices t % E.length]? with
      | none => none
      | some qb =>
          match get_crossable sampler s threshold qb.entity_set_name parts_num with
          | none => select_cross_loop E sampler s threshold parts_num choices fuel (t + 1)
          | some pair =>
              if pair.isEmpty || pair.length = 1 then
                select_cross_loop E sampler s threshold parts_num choices fuel (t + 1)
              else some (pair, qb)

/-- Selector.select.  _compute_score_average is a no-op in the source.
The stagnation check runs first (mutating the selector state); under
stagnation the selection carries crossable None and a random queryable,
otherwise the crossable search loop runs.  The passed_iterations counter
is incremented after either branch. -/
def select (E : List Queryable)
    (sampler : List StoredQuery → List StoredQuery) (s : Store)
    (st : SelectorState) (threshold parts_num : ℕ) (choices : ℕ → ℕ)
    (fuel : ℕ) : Option (Selection × SelectorState) :=
  let r := is_score_stagnating st s
  let st1 := r.2
  if r.1 then
    match E[choices 0 % E.length]? with
    | none => none
    | some qb =>
        some ({ crossable := none, queryable := qb,
                score_average := st1.score_average },
              { st1 with passed_iterations := st1.passed_iterations + 1 })
  else
    match select_cross_loop E sampler s threshold parts_num choices fuel 0 with
    | none => none
    | some pq =>
        some ({ crossable := some pq.1, queryable := pq.2,
                score_average := st1.score_average },
              { st1 with passed_iterations := st1.passed_iterations + 1 })

/-! ## Concrete data for witnesses and counterexamples -/

/-- A sample filter part. -/
def partA : FilterPart := { name := "Name", operator := "eq", operand := "v" }

/-- A second sample filter part, different from partA. -/
def partB : FilterPart := { name := "City", operator := "ne", operand := "w" }

/-- A sample filter option with two parts. -/
def filterAB : FilterOption :=
  { logicals := ["and"], parts := [partA, partB], groups := [] }

/-- A sample filter option with a single part. -/
def filterA : FilterOption := { logicals := [], parts := [partA], groups := [] }

/-- A sample filter option with the same part twice, used by the C4
counterexample. -/
def filterAA : FilterOption :=
  { logicals := ["and"], parts := [partA, partA], groups := [] }

/-- The concrete query used by the C1 witness: entity name E, one option
key of length 7, query string of length 13, response 500 after 2.5 s. -/
def qC1 : QueryObj :=
  { entity_name := "E"
    options := [("$filter", filterA)]
    query_string := "E?$filter=abc"
    predecessors := []
    response := some { status_code := 500, elapsed_total_seconds := 5/2 }
    id := "c1" }

/-- A stored query with score 4, used by the C2 counter-evaluation. -/
def weakQuery : StoredQuery :=
  { id := "q0", predecessors := [], string := "E?$filter=abc", score := 4
    search := none, top := none, skip := none, filter := some filterA }

/-- A one-document store holding only weakQuery. -/
def weakStore : Store :=
  [{ http := "200", errorCode := none, errorMessage := none,
     entitySetName := "E", queries := [weakQuery] }]

/-- A stored predecessor with a high score, used by the C6 evaluation. -/
def strongPredecessor : StoredQuery :=
  { id := "p0", predecessors := [], string := "E?$filter=p", score := 1000
    search := none, top := none, skip := none, filter := some filterA }

/-- The stored copy of the query analyzed in the C6 evaluation: it lists
strongPredecessor as its only predecessor. -/
def childQuery : StoredQuery :=
  { id := "q6", predecessors := ["p0"], string := "E?$filter=abc", score := 0
    search := none, top := none, skip := none, filter := some filterA }

/-- The store for the C6 evaluation, holding the predecessor and the
child. -/
def analyzeStore : Store :=
  [{ http := "200", errorCode := none, errorMessage := none,
     entitySetName := "E", queries := [strongPredecessor, childQuery] }]

/-- The analyzed query object for C6: same id as childQuery, response 200
after 0.1 s, one option key of length 7, query string of length 13, so
its fresh score is round(200/5) = 40, far below the predecessor score. -/
def qC6 : QueryObj :=
  { entity_name := "E"
    options := [("$filter", filterA)]
    query_string := "E?$filter=abc"
    predecessors := ["p0"]
    response := some { status_code := 200, elapsed_total_seconds := 1/10 }
    id := "q6" }

/-- A store with one query of score 1000, used by the C7 counterexample
and the C8 witness. -/
def richStore : Store :=
  [{ http := "500", errorCode := some "X", errorMessage := none,
     entitySetName := "E",
     queries := [{ id := "r0", predecessors := [], string := "E?$filter=r",
                   score := 1000, search := none, top := none, skip := none,
                   filter := some filterAB }] }]

/-- The document saved in the C5 witness. -/
def docC5 : CorpusDoc :=
  { http := "500", errorCode := some "SY/530", errorMessage := some "err",
    entitySetName := "E", queries := [weakQuery] }

/-- A one-element queryable list for the selector witnesses. -/
def entE : Queryable := { entity_set_name := "E" }

/-- A concrete admissible sample stage: take the first two candidates. -/
def takeTwo : List StoredQuery → List StoredQuery := fun l => l.take 2

/-- A concrete random-index stream: always draw index 0. -/
def zeroChoices : ℕ → ℕ := fun _ => 0

/-! ## Claim C1 -/

/-- C1: for every query with an attached response, FitnessEvaluator.evaluate
returns status_score + elapsed_score + length_score, where status_score is
100 exactly for status code 500 and 0 otherwise, elapsed_score is
0 / 1 / 2 / 5 on the elapsed-time buckets below 2 s / below 10 s / below
20 s / at least 20 s, and length_score is round(200 / L) with L the
query-string length minus the entity-name length minus the summed
option-key lengths, under the precondition L > 0. -/
theorem evaluate_is_sum_of_three_scores (q : QueryObj) (r : Response)
    (hr : q.response = some r) (hL : 0 < query_len q) :
    evaluate q = some
      ((if r.status_code = 500 then 100 else 0) +
       (if r.elapsed_total_seconds < 2 then 0
        else if r.elapsed_total_seconds < 10 then 1
        else if r.elapsed_total_seconds < 20 then 2
        else 5) +
       pythonRound ((200 : ℚ) / (query_len q : ℚ))) := by
  simp only [evaluate, hr, Option.map_some']
  congr 1
  have hs : ((STRING_THRESHOLD : ℕ) : ℚ) = (200 : ℚ) := by
    norm_num [STRING_THRESHOLD]
  simp only [eval_string_length, hs, eval_http_status_code,
    eval_http_response_time]
  ring

/-- Witness for C1 at the concrete query qC1 (L = 13 - 1 - 7 = 5,
status 500, elapsed 2.5 s): the score is 100 + 1 + round(200/5) = 141. -/
theorem evaluate_is_sum_of_three_scores_witness :
    0 < query_len qC1 ∧ evaluate qC1 = some 141 := by
  refine ⟨by decide, ?_⟩
  have h := evaluate_is_sum_of_three_scores qC1
    { status_code := 500, elapsed_total_seconds := 5/2 } rfl (by decide)
  rw [h]
  have hql : query_len qC1 = 5 := by decide
  rw [hql]
  norm_num [pythonRound]

/-! ## Claim C2 -/

/-- C2 is a bug in the source: remove_weak_queries ignores both of its
arguments.  At score_threshold 3 and max_n 0 on a store holding a single
query of score 4, the call still deletes that query and returns 1,
although the claim requires at most 0 deletions, each with score below 3
(and 4 is not below 3): the live pipeline matches the hard-coded literal
bound 5.521123123213123123213123 with limit one instead of the arguments
(the pipeline honouring them is commented out in the source). -/
theorem remove_weak_queries_ignores_arguments :
    (remove_weak_queries weakStore 3 0).2 = 1 ∧
    (remove_weak_queries weakStore 3 0).1 =
      [{ http := "200", errorCode := none, errorMessage := none,
         entitySetName := "E", queries := [] }] ∧
    ¬ ((weakQuery.score : ℚ) < 3) := by
  have hlt : ((weakQuery.score : ℚ) < removeWeakHardcodedBound) := by
    norm_num [weakQuery, removeWeakHardcodedBound]
  refine ⟨?_, ?_, by norm_num [weakQuery]⟩ <;>
    simp [remove_weak_queries, weakStore, allQueries, List.filter, hlt]

/-! ## Claim C3 -/

/-- C3 is a bug in the source: the child query built by
Fuzzer._crossover_queries always carries the empty predecessors list that
Query.__init__ creates — Query.add_predecessor is never called — so the
parents never become the predecessors of the child, for any parents,
random draws, serialization or entity set. -/
theorem crossover_child_has_no_predecessors
    (build_option_string : FilterOption → String)
    (query1_filter query2_filter : FilterOption) (i j : ℕ)
    (entity_set_name new_id : String) :
    (crossover_queries build_option_string query1_filter query2_filter i j
        entity_set_name new_id).predecessors = [] := rfl

/-! ## Claim C4 -/

/-- C4 counterexample: with parent 1 carrying the same part twice and
parent 2 carrying that very part, the crossover child (replace index 0 of
parent 1 by index 0 of parent 2) equals parent 1, and both index 0 and
index 1 qualify as an index whose part comes from parent 2 while all
other parts match parent 1 — so there is no single such index, refuting
the claim as stated. -/
theorem mate_unique_index_counterexample :
    mate filterAA filterA 0 0 = filterAA ∧
    ¬ uniqueCrossIndex (mate filterAA filterA 0 0) filterAA filterA := by
  have hc : mate filterAA filterA 0 0 = filterAA := by decide
  refine ⟨hc, ?_⟩
  rw [hc]
  rintro ⟨k, -, huniq⟩
  have h0 := huniq 0 ⟨by decide, ⟨partA, by decide, by decide⟩,
    fun m _ _ => rfl⟩
  have h1 := huniq 1 ⟨by decide, ⟨partA, by decide, by decide⟩,
    fun m _ _ => rfl⟩
  omega

/-- C4 (amended): for every crossover of parents whose filter parts lists
are non-empty (the two random draws land at in-range indices i and j),
the child parts list has the length of the parts list of parent 1, the
logicals and groups are those of parent 1, and there exists an index at
which the child part equals some part of parent 2 while every other
child part equals the part of parent 1 at its index — all of this
unconditionally.  Provided moreover that the part copied from parent 2
differs from the part of parent 1 it replaces, such an index is exactly
one (without that distinctness proviso the uniqueness can fail, as the
counterexample shows). -/
theorem mate_replaces_exactly_one_part (f1 f2 : FilterOption) (i j : ℕ)
    (hi : i < f1.parts.length) (hj : j < f2.parts.length) :
    (mate f1 f2 i j).parts.length = f1.parts.length ∧
    (mate f1 f2 i j).logicals = f1.logicals ∧
    (mate f1 f2 i j).groups = f1.groups ∧
    (∃ k, k < (mate f1 f2 i j).parts.length ∧
      (∃ p ∈ f2.parts, (mate f1 f2 i j).parts[k]? = some p) ∧
      ∀ m, m < (mate f1 f2 i j).parts.length → m ≠ k →
        (mate f1 f2 i j).parts[m]? = f1.parts[m]?) ∧
    (f2.parts[j]? ≠ f1.parts[i]? →
      uniqueCrossIndex (mate f1 f2 i j) f1 f2) := by
  have hrep : f2.parts[j]? = some (f2.parts[j]) := List.getElem?_eq_getElem hj
  have hc : mate f1 f2 i j = { f1 with parts := f1.parts.set i (f2.parts[j]) } := by
    unfold mate
    rw [hrep]
  rw [hc]
  refine ⟨List.length_set .., rfl, rfl,
    ⟨i, ?_, ⟨f2.parts[j], List.getElem?_mem hrep, ?_⟩, ?_⟩, ?_⟩
  · show i < (f1.parts.set i (f2.parts[j])).length
    simpa using hi
  · show (f1.parts.set i (f2.parts[j]))[i]? = some (f2.parts[j])
    exact List.getElem?_set_self hi
  · intro m _ hmi
    show (f1.parts.set i (f2.parts[j]))[m]? = f1.parts[m]?
    exact List.getElem?_set_ne (fun h => hmi h.symm)
  · intro hne
    refine ⟨i, ⟨?_, ⟨f2.parts[j], List.getElem?_mem hrep, ?_⟩, ?_⟩, ?_⟩
    · show i < (f1.parts.set i (f2.parts[j])).length
      simpa using hi
    · show (f1.parts.set i (f2.parts[j]))[i]? = some (f2.parts[j])
      exact List.getElem?_set_self hi
    · intro m _ hmi
      show (f1.parts.set i (f2.parts[j]))[m]? = f1.parts[m]?
      exact List.getElem?_set_ne (fun h => hmi h.symm)
    · rintro k ⟨_, -, hothers⟩
      by_contra hki
      have heq := hothers i (by simpa using hi) (fun h => hki h.symm)
      rw [show ({ f1 with parts := f1.parts.set i (f2.parts[j]) } :
          FilterOption).parts = f1.parts.set i (f2.parts[j]) from rfl,
        List.getElem?_set_self hi] at heq
      exact hne (hrep.trans heq)

/-- Witness for the amended C4 at parents filterAB (parts A, B) and
filterA (single distinct part A), replacing index 1 of parent 1 by index
0 of parent 2: the unconditional length equality holds, and — since the
copied part differs from the replaced one — so does the unique index
property. -/
theorem mate_replaces_exactly_one_part_witness :
    (1 < filterAB.parts.length ∧ 0 < filterA.parts.length) ∧
    (mate filterAB filterA 1 0).parts.length = filterAB.parts.length ∧
    (filterA.parts[0]? ≠ filterAB.parts[1]? ∧
      uniqueCrossIndex (mate filterAB filterA 1 0) filterAB filterA) :=
  ⟨⟨by decide, by decide⟩,
   (mate_replaces_exactly_one_part filterAB filterA 1 0 (by decide)
      (by decide)).1,
   by decide,
   (mate_replaces_exactly_one_part filterAB filterA 1 0 (by decide)
      (by decide)).2.2.2.2 (by decide)⟩

/-! ## Claim C5 -/

theorem sameKey_symm {b c : CorpusDoc} (h : sameKey b c) : sameKey c b :=
  ⟨h.1.symm, h.2.symm⟩

theorem sameKey_trans {a b c : CorpusDoc} (h1 : sameKey a b)
    (h2 : sameKey b c) : sameKey a c :=
  ⟨h1.1.trans h2.1, h1.2.trans h2.2⟩

/-- Helper: the count test of insert_single_document succeeds exactly
when no stored document carries the key of the incoming one. -/
theorem filter_sameKey_len_zero_iff (s : Store) (d : CorpusDoc) :
    (s.filter (fun b => decide (sameKey b d))).length = 0 ↔
      ∀ b ∈ s, ¬ sameKey b d := by
  rw [List.length_eq_zero, List.filter_eq_nil_iff]
  simp

/-- Helper: update_one is a no-op when no document matches. -/
theorem update_first_of_forall_not (p : CorpusDoc → Bool)
    (f : CorpusDoc → CorpusDoc) :
    ∀ s : Store, (∀ b ∈ s, p b = false) → update_first p f s = s := by
  intro s
  induction s with
  | nil => intro _; rfl
  | cons b rest ih =>
      intro h
      unfold update_first
      rw [h b (by simp)]
      simp only [Bool.false_eq_true, if_false]
      rw [ih (fun c hc => h c (by simp [hc]))]

/-- Helper: update_one rewrites the first matching document. -/
theorem update_first_append (p : CorpusDoc → Bool) (f : CorpusDoc → CorpusDoc) :
    ∀ (pre : Store) (b : CorpusDoc) (post : Store),
      (∀ c ∈ pre, p c = false) → p b = true →
      update_first p f (pre ++ b :: post) = pre ++ f b :: post := by
  intro pre
  induction pre with
  | nil =>
      intro b post _ hb
      rw [List.nil_append, List.nil_append]
      unfold update_first
      rw [hb]
      simp
  | cons c rest ih =>
      intro b post hpre hb
      simp only [List.cons_append]
      unfold update_first
      rw [hpre c (by simp)]
      simp only [Bool.false_eq_true, if_false]
      rw [ih b post (fun e he => hpre e (by simp [he])) hb]

/-- Helper: the effect of update_single_document when the store splits
around the (unique) document carrying the key of the incoming dict:
a no-op if the bucket already holds the query string, otherwise a push
onto exactly that document. -/
theorem update_single_document_eq (s pre post : Store) (b d : CorpusDoc)
    (q : StoredQuery) (hq : d.queries = [q]) (hkeys : uniqueKeys s)
    (hsplit : s = pre ++ b :: post) (hsame : sameKey b d) :
    ((∃ qq ∈ b.queries, qq.string = q.string) →
      update_single_document s d = s) ∧
    ((∀ qq ∈ b.queries, qq.string ≠ q.string) →
      update_single_document s d =
        pre ++ { b with queries := b.queries ++ [q] } :: post) := by
  have hhead : d.queries.head? = some q := by rw [hq]; rfl
  have hkeys' := hkeys
  rw [hsplit] at hkeys'
  unfold uniqueKeys at hkeys'
  obtain ⟨hppre, hpcons, hcross⟩ := List.pairwise_append.mp hkeys'
  obtain ⟨hbpost, hppost⟩ := List.pairwise_cons.mp hpcons
  have hNoPre : ∀ c ∈ pre, ¬ sameKey c d := by
    intro c hc hcd
    exact hcross c hc b (by simp) (sameKey_trans hcd (sameKey_symm hsame))
  have hNoPost : ∀ c ∈ post, ¬ sameKey c d := by
    intro c hc hcd
    exact hbpost c hc (sameKey_trans hsame (sameKey_symm hcd))
  constructor
  · rintro ⟨qq, hqq, hstr⟩
    unfold update_single_document
    rw [hhead, hsplit]
    apply update_first_of_forall_not
    intro c hc
    rcases List.mem_append.mp hc with hcpre | hcb
    · exact decide_eq_false_iff_not.mpr (fun hap => hNoPre c hcpre hap.1)
    · rcases List.mem_cons.mp hcb with rfl | hcpost
      · exact decide_eq_false_iff_not.mpr
          (fun hap => hap.2 qq hqq hstr)
      · exact decide_eq_false_iff_not.mpr
          (fun hap => hNoPost c hcpost hap.1)
  · intro hnstr
    unfold update_single_document
    rw [hhead, hsplit]
    apply update_first_append
    · intro c hc
      exact decide_eq_false_iff_not.mpr (fun hap => hNoPre c hc hap.1)
    · exact decide_eq_true ⟨hsame, hnstr⟩

/-- C5: for every saved query dict (whose query list is the singleton
built by Query._create_dict), on a store with at most one document per
(entity set name, error code) key and no duplicate query string inside
any bucket: if no stored document carries the key of the dict, a new
document is inserted (appended); otherwise the query is appended to the
(unique) document with that key exactly when no query of that bucket
already has the same string, and nothing changes when one does.
Consequently both store invariants — unique keys and, within any one
bucket, pairwise distinct query strings — are preserved. -/
theorem save_document_insert_append_and_dedup (s : Store) (d : CorpusDoc)
    (q : StoredQuery) (hq : d.queries = [q]) (hkeys : uniqueKeys s)
    (hded : bucketDedup s) :
    ((∀ b ∈ s, ¬ sameKey b d) → save_document s d = s ++ [d]) ∧
    (∀ pre b post, s = pre ++ b :: post → sameKey b d →
      ((∃ qq ∈ b.queries, qq.string = q.string) → save_document s d = s) ∧
      ((∀ qq ∈ b.queries, qq.string ≠ q.string) →
        save_document s d =
          pre ++ { b with queries := b.queries ++ [q] } :: post)) ∧
    uniqueKeys (save_document s d) ∧ bucketDedup (save_document s d) := by
  by_cases hkey : ∀ b ∈ s, ¬ sameKey b d
  · have hsave : save_document s d = s ++ [d] := by
      unfold save_document insert_single_document
      rw [if_pos ((filter_sameKey_len_zero_iff s d).mpr hkey)]
      rfl
    refine ⟨fun _ => hsave, ?_, ?_, ?_⟩
    · intro pre b post hsplit hsame
      exact absurd hsame (hkey b (by rw [hsplit]; simp))
    · rw [hsave]
      unfold uniqueKeys
      rw [List.pairwise_append]
      exact ⟨hkeys, List.pairwise_singleton _ _,
        fun a ha c hc => by rw [List.mem_singleton.mp hc]; exact hkey a ha⟩
    · rw [hsave]
      intro c hc
      rcases List.mem_append.mp hc with h | h
      · exact hded c h
      · rw [List.mem_singleton.mp h, hq]
        exact List.pairwise_singleton _ _
  · push_neg at hkey
    obtain ⟨b0, hb0mem, hb0same⟩ := hkey
    have hins : insert_single_document s d = (s, false) := by
      unfold insert_single_document
      rw [if_neg (fun hzero =>
        (filter_sameKey_len_zero_iff s d).mp hzero b0 hb0mem hb0same)]
    have hsave : save_document s d = update_single_document s d := by
      unfold save_document
      rw [hins]
      rfl
    obtain ⟨pre0, post0, hsplit0⟩ := List.append_of_mem hb0mem
    refine ⟨fun hno => absurd hb0same (hno b0 hb0mem), ?_, ?_, ?_⟩
    · intro pre b post hsplit hsame
      rw [hsave]
      exact update_single_document_eq s pre post b d q hq hkeys hsplit hsame
    · rw [hsave]
      by_cases hstr : ∃ qq ∈ b0.queries, qq.string = q.string
      · rw [(update_single_document_eq s pre0 post0 b0 d q hq hkeys hsplit0
          hb0same).1 hstr]
        exact hkeys
      · push_neg at hstr
        rw [(update_single_document_eq s pre0 post0 b0 d q hq hkeys hsplit0
          hb0same).2 hstr]
        have hkeys' := hkeys
        rw [hsplit0] at hkeys'
        unfold uniqueKeys at hkeys' ⊢
        rw [List.pairwise_append] at hkeys' ⊢
        obtain ⟨hppre, hpcons, hcross⟩ := hkeys'
        obtain ⟨hbpost, hppost⟩ := List.pairwise_cons.mp hpcons
        refine ⟨hppre, List.pairwise_cons.mpr ⟨?_, hppost⟩, ?_⟩
        · intro c hc hsk
          exact hbpost c hc hsk
        · intro a ha c hc
          rcases List.mem_cons.mp hc with rfl | hcp
          · exact hcross a ha b0 (by simp)
          · exact hcross a ha c (by simp [hcp])
    · rw [hsave]
      by_cases hstr : ∃ qq ∈ b0.queries, qq.string = q.string
      · rw [(update_single_document_eq s pre0 post0 b0 d q hq hkeys hsplit0
          hb0same).1 hstr]
        exact hded
      · push_neg at hstr
        rw [(update_single_document_eq s pre0 post0 b0 d q hq hkeys hsplit0
          hb0same).2 hstr]
        intro c hc
        rcases List.mem_append.mp hc with hcp | hcb
        · exact hded c (by rw [hsplit0]; simp [hcp])
        · rcases List.mem_cons.mp hcb with rfl | hcpost
          · show List.Pairwise _ (b0.queries ++ [q])
            rw [List.pairwise_append]
            refine ⟨hded b0 hb0mem, List.pairwise_singleton _ _, ?_⟩
            intro a ha x hx
            rw [List.mem_singleton.mp hx]
            exact hstr a ha
          · exact hded c (by rw [hsplit0]; simp [hcpost])

/-- Witness for C5: saving the concrete dict docC5 (a singleton bucket
for key (E, SY/530)) into the empty store inserts it, preserving both
invariants. -/
theorem save_document_insert_append_and_dedup_witness :
    (docC5.queries = [weakQuery] ∧ uniqueKeys ([] : Store) ∧
      bucketDedup ([] : Store)) ∧
    save_document [] docC5 = [docC5] ∧ uniqueKeys [docC5] := by
  have hded : bucketDedup ([] : Store) :=
    fun b hb => absurd hb (List.not_mem_nil b)
  have h := save_document_insert_append_and_dedup [] docC5 weakQuery rfl
    List.Pairwise.nil hded
  refine ⟨⟨rfl, List.Pairwise.nil, hded⟩, ?_, h.2.2.1⟩
  rw [h.1 (fun b hb => absurd hb (List.not_mem_nil b))]
  rfl

/-! ## Claim C6 -/

/-- C6 is a bug in the source: Analyzer.analyze can never mark a query
killable.  At the failing input below, the analyzed query has the
non-empty predecessors list ["p0"], its stored predecessor has score 1000
while the fresh score is 40 (so no predecessor scores at most the new
score), and the death-chance draw succeeds — the claim then requires
killable = true — yet analyze returns killable = false: the source tests
membership of "predecessors" among the keys of the document returned by
query_by_id, which is the aggregation wrapper with keys _id and Query
only, so the killable branch is dead code. -/
theorem analyze_never_killable_at_failing_input :
    analyze analyzeStore 5 qC6 true =
      some { score := 40, killable := false, population_score := 45 } ∧
    qC6.predecessors = ["p0"] ∧
    query_by_id analyzeStore "p0" = some strongPredecessor ∧
    ¬ strongPredecessor.score ≤ 40 := by
  have hev : evaluate qC6 = some 40 := by
    unfold evaluate
    rw [show qC6.response =
        some ({ status_code := 200, elapsed_total_seconds := 1/10 } : Response)
      from rfl, Option.map_some']
    rw [show query_len qC6 = 5 from by decide]
    norm_num [eval_string_length, eval_http_status_code,
      eval_http_response_time, pythonRound, STRING_THRESHOLD]
  refine ⟨?_, by decide, by decide, by decide⟩
  unfold analyze
  rw [hev]
  decide

/-! ## Claim C7 -/

/-- C7 counterexample: on a corpus whose single query scores 1000 and a
selector state with stored average 0 and 31 passed iterations, the
recomputed average 1000 differs from the stored one by 1000 ≥ 200, so no
stagnation is declared — and still the counter is reset to 0 and the
stored average is overwritten with 1000, refuting the part of the claim
that ties the reset and the update to a declared stagnation. -/
theorem stagnation_update_without_stagnation :
    (is_score_stagnating { score_average := 0, passed_iterations := 31 }
        richStore).1 = false ∧
    (is_score_stagnating { score_average := 0, passed_iterations := 31 }
        richStore).2 =
      { score_average := 1000, passed_iterations := 0 } := by
  have ho : overallScore richStore = 1000 := by decide
  have ht : totalQueries richStore = 1 := by decide
  unfold is_score_stagnating
  rw [ho, ht]
  norm_num [ITERATIONS_THRESHOLD, SCORE_EPS]

/-- C7 (amended): the Selector declares stagnation exactly when
passed_iterations exceeds ITERATIONS_THRESHOLD = 30 and the freshly
recomputed corpus average differs from the stored average by strictly
less than SCORE_EPS = 200; the counter reset and the stored-average
update, however, happen whenever passed_iterations exceeds the threshold,
whether or not stagnation is declared, and the state is untouched
otherwise.  The hypothesis on totalQueries excludes the store with no
queries, on which the source raises instead of returning. -/
theorem is_score_stagnating_spec (st : SelectorState) (s : Store)
    (hne : totalQueries s ≠ 0) :
    ((is_score_stagnating st s).1 = true ↔
      (ITERATIONS_THRESHOLD < st.passed_iterations ∧
        |st.score_average - (overallScore s : ℚ) / (totalQueries s : ℚ)| <
          SCORE_EPS)) ∧
    (ITERATIONS_THRESHOLD < st.passed_iterations →
      (is_score_stagnating st s).2 =
        { score_average := (overallScore s : ℚ) / (totalQueries s : ℚ),
          passed_iterations := 0 }) ∧
    (st.passed_iterations ≤ ITERATIONS_THRESHOLD →
      (is_score_stagnating st s).2 = st) := by
  unfold is_score_stagnating
  by_cases h : ITERATIONS_THRESHOLD < st.passed_iterations
  · by_cases habs :
      |st.score_average - (overallScore s : ℚ) / (totalQueries s : ℚ)| <
        SCORE_EPS
    · simp [h, habs, Nat.not_le.mpr h]
    · simp [h, habs, Nat.not_le.mpr h]
  · simp [h]

/-- Witness for C7 at the one-query store of score 1000 and a selector
state with stored average 900 after 31 iterations: the delta is 100 < 200
and the counter exceeded 30, so stagnation is declared. -/
theorem is_score_stagnating_spec_witness :
    totalQueries richStore ≠ 0 ∧
    (is_score_stagnating { score_average := 900, passed_iterations := 31 }
        richStore).1 = true := by
  refine ⟨by decide, ?_⟩
  have ho : overallScore richStore = 1000 := by decide
  have ht : totalQueries richStore = 1 := by decide
  exact (is_score_stagnating_spec
      { score_average := 900, passed_iterations := 31 } richStore
      (by decide)).1.mpr
    ⟨by norm_num [ITERATIONS_THRESHOLD],
     by rw [ho, ht]; norm_num [SCORE_EPS]⟩

/-! ## Claim C8 -/

/-- Helper: the stagnation check at a state past the threshold with a
small average delta declares stagnation and leaves the reset state. -/
theorem is_score_stagnating_of_delta_lt (st : SelectorState) (s : Store)
    (hst : ITERATIONS_THRESHOLD < st.passed_iterations)
    (hdelta : |st.score_average -
        (overallScore s : ℚ) / (totalQueries s : ℚ)| < SCORE_EPS) :
    is_score_stagnating st s =
      (true, { score_average := (overallScore s : ℚ) / (totalQueries s : ℚ),
               passed_iterations := 0 }) := by
  unfold is_score_stagnating
  simp [hst, hdelta]

/-- C8: whenever stagnation is declared, Selector.select returns a
selection whose crossable is empty (None) and whose queryable is the
element of the queryables drawn by the single random.choice call — the
index oracle is arbitrary, so every queryable is a possible outcome, and
random.choice draws it uniformly.  (The selection also carries the
refreshed average, and the iteration counter restarts at 1 after the
increment at the end of select.) -/
theorem select_stagnation_returns_empty_crossable (E : List Queryable)
    (sampler : List StoredQuery → List StoredQuery) (s : Store)
    (st : SelectorState) (threshold parts_num : ℕ) (choices : ℕ → ℕ)
    (fuel : ℕ) (hE : E ≠ [])
    (hst : ITERATIONS_THRESHOLD < st.passed_iterations)
    (hdelta : |st.score_average -
        (overallScore s : ℚ) / (totalQueries s : ℚ)| < SCORE_EPS) :
    ∃ qb, E[choices 0 % E.length]? = some qb ∧
      select E sampler s st threshold parts_num choices fuel =
        some ({ crossable := none, queryable := qb,
                score_average := (overallScore s : ℚ) / (totalQueries s : ℚ) },
              { score_average := (overallScore s : ℚ) / (totalQueries s : ℚ),
                passed_iterations := 1 }) := by
  have hlen : choices 0 % E.length < E.length :=
    Nat.mod_lt _ (List.length_pos.mpr hE)
  refine ⟨E[choices 0 % E.length], List.getElem?_eq_getElem hlen, ?_⟩
  unfold select
  rw [is_score_stagnating_of_delta_lt st s hst hdelta]
  simp [List.getElem?_eq_getElem hlen]

/-- Witness for C8: one queryable, the one-query store of score 1000, a
state with average 900 after 31 iterations; select returns an empty
crossable and the single queryable. -/
theorem select_stagnation_returns_empty_crossable_witness :
    ([entE] : List Queryable) ≠ [] ∧
    ITERATIONS_THRESHOLD < 31 ∧
    |(900 : ℚ) - (overallScore richStore : ℚ) / (totalQueries richStore : ℚ)| <
      SCORE_EPS ∧
    (∃ qb, ([entE] : List Queryable)[zeroChoices 0 % ([entE] : List Queryable).length]? = some qb ∧
      select [entE] takeTwo richStore
          { score_average := 900, passed_iterations := 31 } 3 2 zeroChoices 1 =
        some ({ crossable := none, queryable := qb,
                score_average := (overallScore richStore : ℚ) /
                  (totalQueries richStore : ℚ) },
              { score_average := (overallScore richStore : ℚ) /
                  (totalQueries richStore : ℚ),
                passed_iterations := 1 })) := by
  have ho : overallScore richStore = 1000 := by decide
  have ht : totalQueries richStore = 1 := by decide
  have habs : |(900 : ℚ) -
      (overallScore richStore : ℚ) / (totalQueries richStore : ℚ)| <
        SCORE_EPS := by
    rw [ho, ht]
    norm_num [SCORE_EPS]
  exact ⟨by decide, by decide, habs,
    select_stagnation_returns_empty_crossable [entE] takeTwo richStore
      { score_average := 900, passed_iterations := 31 } 3 2 zeroChoices 1
      (by decide) (by decide) habs⟩

/-! ## Claim C9 -/

/-- Helper: a sample drawn from the empty candidate list is empty. -/
theorem sampler_nil_eq_nil (sampler : List StoredQuery → List StoredQuery)
    (hsub : ∀ l, ∀ x ∈ sampler l, x ∈ l) : sampler [] = [] :=
  List.eq_nil_iff_forall_not_mem.mpr
    (fun x hx => by simpa using hsub [] x hx)

/-- Helper: on the empty store find_similar_queries yields no queries. -/
theorem find_similar_queries_empty_store
    (sampler : List StoredQuery → List StoredQuery)
    (hsub : ∀ l, ∀ x ∈ sampler l, x ∈ l)
    (http_code entity_set_name : String) (parts_num : ℕ) :
    find_similar_queries sampler [] http_code entity_set_name parts_num = [] := by
  unfold find_similar_queries
  simp [allQueries]
  exact sampler_nil_eq_nil sampler hsub

/-- Helper: on the empty store the retry loop of _get_crossable ends with
None (zero rounds) or the empty list (at least one round). -/
theorem get_crossable_go_empty_store
    (sampler : List StoredQuery → List StoredQuery)
    (hsub : ∀ l, ∀ x ∈ sampler l, x ∈ l)
    (entity_set_name : String) (parts_num : ℕ) :
    ∀ n acc, get_crossable_go sampler [] entity_set_name parts_num n acc =
      (match n with
       | 0 => acc
       | _ + 1 => some []) := by
  intro n
  induction n with
  | zero => intro acc; rfl
  | succ k ih =>
      intro acc
      unfold get_crossable_go
      rw [find_similar_queries_empty_store sampler hsub "500" entity_set_name
          parts_num,
        find_similar_queries_empty_store sampler hsub "200" entity_set_name
          parts_num]
      simp only [List.isEmpty_nil, if_true]
      rw [ih (some [])]
      cases k <;> rfl

/-- Helper: on the empty store the unbounded reroll loop of the
non-stagnating branch of select never produces a selection, whatever the
fuel. -/
theorem select_cross_loop_empty_store (E : List Queryable)
    (sampler : List StoredQuery → List StoredQuery)
    (hsub : ∀ l, ∀ x ∈ sampler l, x ∈ l)
    (threshold parts_num : ℕ) (choices : ℕ → ℕ) :
    ∀ fuel t,
      select_cross_loop E sampler [] threshold parts_num choices fuel t = none := by
  intro fuel
  induction fuel with
  | zero => intro t; rfl
  | succ k ih =>
      intro t
      unfold select_cross_loop
      cases hqb : E[choices t % E.length]? with
      | none => rfl
      | some qb =>
          simp only []
          unfold get_crossable
          rw [get_crossable_go_empty_store sampler hsub qb.entity_set_name
            parts_num threshold none]
          cases threshold with
          | zero => exact ih (t + 1)
          | succ n =>
              simp only [List.isEmpty_nil, List.length_nil, Bool.true_or,
                if_true]
              exact ih (t + 1)

/-- C9 is a bug in the source: the claim requires the crossable search of
the non-stagnating branch of Selector.select to terminate after at most
SELECTION_THRESHOLD attempts on every corpus state, but the reroll loop
in the source is unbounded: on a corpus with no stored queries (and any
selection threshold, any queryable list, any sampling randomness), no
amount of fuel makes the loop produce a result — select diverges. -/
theorem select_never_terminates_on_empty_corpus (E : List Queryable)
    (sampler : List StoredQuery → List StoredQuery) (st : SelectorState)
    (threshold parts_num : ℕ) (choices : ℕ → ℕ)
    (hsub : ∀ l, ∀ x ∈ sampler l, x ∈ l)
    (hst : st.passed_iterations ≤ ITERATIONS_THRESHOLD) :
    ∀ fuel, select E sampler [] st threshold parts_num choices fuel = none := by
  intro fuel
  unfold select
  have hstag : is_score_stagnating st [] = (false, st) := by
    unfold is_score_stagnating
    simp [Nat.not_lt.mpr hst]
  rw [hstag]
  simp only [Bool.false_eq_true, if_false]
  rw [select_cross_loop_empty_store E sampler hsub threshold parts_num
    choices fuel 0]

/-- Witness for C9 at a concrete instantiation: one queryable, the
take-two sampler, a fresh selector state, threshold 3, parts bound 2,
fuel 5. -/
theorem select_never_terminates_on_empty_corpus_witness :
    (∀ l, ∀ x ∈ takeTwo l, x ∈ l) ∧
    ({ score_average := 900, passed_iterations := 0 } :
        SelectorState).passed_iterations ≤ ITERATIONS_THRESHOLD ∧
    select [entE] takeTwo [] { score_average := 900, passed_iterations := 0 }
      3 2 zeroChoices 5 = none := by
  have hsub : ∀ l, ∀ x ∈ takeTwo l, x ∈ l :=
    fun l x hx => List.mem_of_mem_take hx
  exact ⟨hsub, by decide,
    select_never_terminates_on_empty_corpus [entE] takeTwo
      { score_average := 900, passed_iterations := 0 } 3 2 zeroChoices hsub
      (by decide) 5⟩

/-! ## Claim C10 -/

/-- C10: Fuzzer._mate mutates parent 1 in place.  After the call, the
part of the filter of parent 1 chosen for replacement carries the name,
operator and operand copied from parent 2, the filter returned for the
child is the very value the filter of parent 1 now holds (in the source
they are the same object), and — whenever the copied part differs from
the replaced one — the filter of parent 1 does not remain unchanged. -/
theorem mate_mutates_first_parent (f1 f2 : FilterOption) (i j : ℕ)
    (hi : i < f1.parts.length) (hj : j < f2.parts.length)
    (hne : f2.parts[j]? ≠ f1.parts[i]?) :
    mate f1 f2 i j = q1_filter_after_mate f1 f2 i j ∧
    (q1_filter_after_mate f1 f2 i j).parts[i]? = f2.parts[j]? ∧
    q1_filter_after_mate f1 f2 i j ≠ f1 := by
  have hrep : f2.parts[j]? = some (f2.parts[j]) := List.getElem?_eq_getElem hj
  have hc : q1_filter_after_mate f1 f2 i j =
      { f1 with parts := f1.parts.set i (f2.parts[j]) } := by
    unfold q1_filter_after_mate
    rw [hrep]
  refine ⟨rfl, ?_, ?_⟩
  · rw [hc]
    show (f1.parts.set i (f2.parts[j]))[i]? = f2.parts[j]?
    rw [hrep]
    exact List.getElem?_set_self hi
  · rw [hc]
    intro hEq
    have hparts : f1.parts.set i (f2.parts[j]) = f1.parts :=
      congrArg FilterOption.parts hEq
    have hidx : (f1.parts.set i (f2.parts[j]))[i]? = f1.parts[i]? := by
      rw [hparts]
    rw [List.getElem?_set_self hi] at hidx
    exact hne (hrep.trans hidx)

/-- Witness for C10 at parents filterAB and filterA, replacing index 1 of
parent 1 by the (different) part at index 0 of parent 2. -/
theorem mate_mutates_first_parent_witness :
    (1 < filterAB.parts.length ∧ 0 < filterA.parts.length ∧
      filterA.parts[0]? ≠ filterAB.parts[1]?) ∧
    q1_filter_after_mate filterAB filterA 1 0 ≠ filterAB :=
  ⟨⟨by decide, by decide, by decide⟩,
   (mate_mutates_first_parent filterAB filterA 1 0 (by decide) (by decide)
      (by decide)).2.2⟩

end Odfuzz
